import Mathlib

/-!
# Verification of the pump.fun SDK transaction orchestrator and pricing helpers

Shallow embedding of `src/util.ts`, `src/pumpfun.ts` and `src/jito.ts`.
TypeScript `bigint` is arbitrary-precision signed integer arithmetic whose
division truncates toward zero, so it is modelled by `Int` with `Int.tdiv`.
Public keys are abstracted as natural numbers; the external collaborators
(global-account fetch, associated-token-account lookup, random tip-account
draw) are modelled as an explicit environment record threaded through the
plan builder, exactly mirroring where `src/pumpfun.ts` consults them.
-/

namespace PumpFun

/-- Abstract Solana public key. -/
abbrev Pubkey := Nat

/-- A keypair, identified by its public key (`Keypair` in `@solana/web3.js`). -/
structure Keypair where
  pub : Pubkey
deriving DecidableEq, Repr

/-- A bundled buy participant (`BundledBuy` in `src/types.ts`), with the
fields used by `createAndBuy` in `src/pumpfun.ts`: `signer`, `amountInSol`. -/
structure BundledBuy where
  signer : Keypair
  amountInSol : Int
deriving DecidableEq, Repr

/-- Constant `MAX_BUNDLED_BUYS_PER_TX` from `src/pumpfun.ts` line 64. -/
def MAX_BUNDLED_BUYS_PER_TX : Nat := 4

/-- Constant `TIP_LAMPORTS` from `src/jito.ts` line 29. -/
def TIP_LAMPORTS : Nat := 100000

/-- Function `calculateWithSlippageBuy` from `src/util.ts` lines 29-34:
`amount + (amount * basisPoints) / 10000n`, with TypeScript bigint division
(truncation toward zero, hence `Int.tdiv`). -/
def calculateWithSlippageBuy (amount basisPoints : Int) : Int :=
  amount + (amount * basisPoints).tdiv 10000

/-- Function `calculateWithSlippageSell` from `src/util.ts` lines 36-41:
`amount - (amount * basisPoints) / 10000n`, plain bigint subtraction. -/
def calculateWithSlippageSell (amount basisPoints : Int) : Int :=
  amount - (amount * basisPoints).tdiv 10000

/-- The instructions the SDK emits, abstracted to the fields that matter for
signing and for the claims: the system transfer used as a Jito tip, the
`create` instruction, the associated-token-account creation, and the
`buy` / `sell` program instructions. -/
inductive Instruction where
  | transfer (fromPubkey toPubkey : Pubkey) (lamports : Nat)
  | create (user mint : Pubkey) (name symbol uri : String)
  | createATA (payer ata owner mint : Pubkey)
  | buy (user mint feeRecipient : Pubkey) (amount solAmount : Int)
  | sell (user mint feeRecipient : Pubkey) (amount minSolOutput : Int)
deriving DecidableEq, Repr

/-- External collaborators consulted by `createAndBuy` / `getBuyInstructions`:
the global account's fee recipient and `getInitialBuyPrice` (from
`src/globalAccount.ts`, reached through `getGlobalAccount`), the
associated-token-account existence lookup (`getAccount` against the
connection, keyed on buyer and mint), the derived associated-token address,
and the pseudo-random tip-account draw (`getRandomTipAccount`), indexed by
draw number. -/
structure Env where
  feeRecipient : Pubkey
  initialBuyPrice : Int → Int
  ataExists : Pubkey → Pubkey → Bool
  ata : Pubkey → Pubkey → Pubkey
  tipAccount : Nat → Pubkey

/-- Method `PumpFunSDK.getBuyInstructions` from `src/pumpfun.ts` lines 425-470:
the `getAccount` lookup of the buyer's associated token account decides
whether a `createAssociatedTokenAccountInstruction` is prepended (the
`try`/`catch` makes absence a creation trigger, never an error); the `buy`
instruction carrying `amount` and `solAmount` is always appended. -/
def getBuyInstructions (env : Env) (buyer mint feeRecipient : Pubkey)
    (amount solAmount : Int) : List Instruction :=
  (if env.ataExists buyer mint then []
   else [Instruction.createATA buyer (env.ata mint buyer) buyer mint])
  ++ [Instruction.buy buyer mint feeRecipient amount solAmount]

/-- The batch-slicing loop of `createAndBuy` (`src/pumpfun.ts` lines 176-179):
`for (i = 0; i < bundledBuys.length; i += MAX_BUNDLED_BUYS_PER_TX)
   batches.push(bundledBuys.slice(i, i + MAX_BUNDLED_BUYS_PER_TX))`. -/
def makeBatches (l : List BundledBuy) : List (List BundledBuy) :=
  if h : l = [] then []
  else l.take MAX_BUNDLED_BUYS_PER_TX
        :: makeBatches (l.drop MAX_BUNDLED_BUYS_PER_TX)
termination_by l.length
decreasing_by
  have hp : 0 < l.length := List.length_pos.mpr h
  simp [MAX_BUNDLED_BUYS_PER_TX]
  omega

theorem makeBatches_nil : makeBatches [] = [] := by
  rw [makeBatches]
  simp

theorem makeBatches_cons (l : List BundledBuy) (h : l ≠ []) :
    makeBatches l
      = l.take MAX_BUNDLED_BUYS_PER_TX
        :: makeBatches (l.drop MAX_BUNDLED_BUYS_PER_TX) := by
  rw [makeBatches]
  simp [h]

theorem makeBatches_length (l : List BundledBuy) :
    (makeBatches l).length = (l.length + 3) / 4 := by
  induction l using makeBatches.induct with
  | case1 => rw [makeBatches_nil]; rfl
  | case2 l h ih =>
      rw [makeBatches_cons l h, List.length_cons, ih, List.length_drop]
      have : 0 < l.length := List.length_pos.mpr h
      show ((l.length - MAX_BUNDLED_BUYS_PER_TX + 3) / 4) + 1
            = (l.length + 3) / 4
      simp only [MAX_BUNDLED_BUYS_PER_TX]
      omega

theorem makeBatches_mem (l : List BundledBuy) (b : List BundledBuy)
    (hb : b ∈ makeBatches l) : b ≠ [] ∧ b.length ≤ 4 := by
  induction l using makeBatches.induct with
  | case1 => rw [makeBatches_nil] at hb; cases hb
  | case2 l h ih =>
      rw [makeBatches_cons l h, List.mem_cons] at hb
      rcases hb with rfl | hb
      · have hp : 0 < l.length := List.length_pos.mpr h
        refine ⟨fun e => ?_, ?_⟩
        · have hlen := congrArg List.length e
          simp only [List.length_take, List.length_nil,
            MAX_BUNDLED_BUYS_PER_TX] at hlen
          omega
        · simp [MAX_BUNDLED_BUYS_PER_TX]
      · exact ih hb

theorem makeBatches_nine (l : List BundledBuy) (h9 : l.length = 9) :
    makeBatches l = [l.take 4, (l.drop 4).take 4, l.drop 8] := by
  have h1 : l ≠ [] := by intro e; rw [e] at h9; cases h9
  have h2 : l.drop MAX_BUNDLED_BUYS_PER_TX ≠ [] := by
    intro e
    have := congrArg List.length e
    simp [MAX_BUNDLED_BUYS_PER_TX, h9] at this
  have h3 : (l.drop MAX_BUNDLED_BUYS_PER_TX).drop MAX_BUNDLED_BUYS_PER_TX
      ≠ [] := by
    intro e
    have := congrArg List.length e
    simp [MAX_BUNDLED_BUYS_PER_TX, h9] at this
  rw [makeBatches_cons l h1, makeBatches_cons _ h2, makeBatches_cons _ h3]
  have h4 : (((l.drop MAX_BUNDLED_BUYS_PER_TX).drop
      MAX_BUNDLED_BUYS_PER_TX).drop MAX_BUNDLED_BUYS_PER_TX) = [] := by
    apply List.eq_nil_of_length_eq_zero
    simp [MAX_BUNDLED_BUYS_PER_TX, h9]
  rw [h4, makeBatches_nil]
  have h5 : ((l.drop MAX_BUNDLED_BUYS_PER_TX).drop
      MAX_BUNDLED_BUYS_PER_TX).take MAX_BUNDLED_BUYS_PER_TX
      = (l.drop MAX_BUNDLED_BUYS_PER_TX).drop MAX_BUNDLED_BUYS_PER_TX := by
    apply List.take_of_length_le
    simp [MAX_BUNDLED_BUYS_PER_TX, h9]
  rw [h5]
  simp [MAX_BUNDLED_BUYS_PER_TX, List.drop_drop]

/-- Effects of `createAndBuy` that the claims observe: the global-account
fetch and initial-buy quote used to price the creator's own buy
(`src/pumpfun.ts` lines 152-158), and the per-batch global-account fetch
(line 183). -/
inductive Effect where
  | fetchGlobalForCreatorBuy
  | quoteCreatorInitialBuy (solIn : Int)
  | fetchGlobalForBatch
deriving DecidableEq, Repr

/-- The batch plan built by `createAndBuy` before submission:
`allTransactions`, `allSigners`, and the observed effects. -/
structure Plan where
  txs : List (List Instruction)
  signers : List (List Keypair)
  effects : List Effect
deriving Repr

/-- One secondary batch transaction (`src/pumpfun.ts` lines 181-213): a Jito
tip transfer funded by the batch's first participant when relay routing is
enabled, followed by each participant's buy instructions, priced from the
freshly fetched global account and slippage-bounded on `amountInSol`. -/
def batchTransaction (env : Env) (jitoEnabled : Bool) (tipLamports : Nat)
    (mint : Pubkey) (slippageBasisPoints : Int) (drawIndex : Nat)
    (batch : List BundledBuy) : List Instruction :=
  (if jitoEnabled then
    match batch with
    | [] => []
    | b :: _ => [Instruction.transfer b.signer.pub (env.tipAccount drawIndex)
                  tipLamports]
   else [])
  ++ (batch.map (fun buy =>
        getBuyInstructions env buy.signer.pub mint env.feeRecipient
          (env.initialBuyPrice buy.amountInSol)
          (calculateWithSlippageBuy buy.amountInSol slippageBasisPoints))).flatten

/-- The `for (const batch of batches)` loop over batches, threading the
tip-account draw index. -/
def batchTransactions (env : Env) (jitoEnabled : Bool) (tipLamports : Nat)
    (mint : Pubkey) (slippageBasisPoints : Int) :
    Nat → List (List BundledBuy) → List (List Instruction)
  | _, [] => []
  | j, batch :: rest =>
      batchTransaction env jitoEnabled tipLamports mint slippageBasisPoints
        j batch
      :: batchTransactions env jitoEnabled tipLamports mint slippageBasisPoints
        (j + 1) rest

/-- The planning phase of `PumpFunSDK.createAndBuy` (`src/pumpfun.ts` lines
124-218): the primary transaction (optional Jito tip funded by the creator,
the `create` instruction, and — only when `buyAmountSol > 0` — the creator's
own buy priced via a global-account fetch and `getInitialBuyPrice`), followed
by one batch transaction per slice of at most `MAX_BUNDLED_BUYS_PER_TX`
bundled buys; `allSigners` is `[creator, mint]` for the primary transaction
and each batch's own signers for the batch transactions. -/
def createAndBuyPlan (env : Env) (creator mint : Keypair)
    (name symbol uri : String) (buyAmountSol slippageBasisPoints : Int)
    (jitoEnabled : Bool) (tipLamports : Nat)
    (bundledBuys : List BundledBuy) : Plan :=
  let tipIxs := if jitoEnabled then
      [Instruction.transfer creator.pub (env.tipAccount 0) tipLamports]
    else []
  let createIxs := [Instruction.create creator.pub mint.pub name symbol uri]
  let buyIxs := if buyAmountSol > 0 then
      getBuyInstructions env creator.pub mint.pub env.feeRecipient
        (env.initialBuyPrice buyAmountSol)
        (calculateWithSlippageBuy buyAmountSol slippageBasisPoints)
    else []
  let creatorEffects := if buyAmountSol > 0 then
      [Effect.fetchGlobalForCreatorBuy,
       Effect.quoteCreatorInitialBuy buyAmountSol]
    else []
  let batches := if bundledBuys.length > 0 then makeBatches bundledBuys else []
  { txs := (tipIxs ++ createIxs ++ buyIxs)
      :: batchTransactions env jitoEnabled tipLamports mint.pub
          slippageBasisPoints 1 batches
    signers := [creator, mint] :: batches.map (fun batch => batch.map (·.signer))
    effects := creatorEffects ++ batches.map (fun _ => Effect.fetchGlobalForBatch) }

/-- Structure `TransactionResult` from `src/types.ts`, with the fields used by
`createAndBuy` and `sendTx`: a success flag, a signature on success, an
error on failure. -/
structure TransactionResult where
  success : Bool
  signature : Option String := none
  error : Option String := none
deriving DecidableEq, Repr

/-- The sequential submission loop of `createAndBuy` (`src/pumpfun.ts` lines
260-286), run over the outcome each `sendTx` call would produce: on the first
failed result the loop returns that failure immediately (later transactions
are never submitted); the result of transaction 0 is remembered in `result0`
and returned when every transaction succeeds. The second component counts
how many transactions were submitted. -/
def runSequentialGo : List TransactionResult → Option TransactionResult →
    Nat → Option TransactionResult × Nat
  | [], result0, submitted => (result0, submitted)
  | r :: rest, result0, submitted =>
    if r.success then
      runSequentialGo rest (if submitted = 0 then some r else result0)
        (submitted + 1)
    else (some r, submitted + 1)

def runSequential (outcomes : List TransactionResult) :
    Option TransactionResult × Nat :=
  runSequentialGo outcomes none 0

/-- A Jito relay JSON-RPC response (`sendBundle` in `src/jito.ts`): an
optional error object and the bundle id in `result`. -/
structure RelayResponse where
  error : Option String := none
  result : String := ""
deriving DecidableEq, Repr

/-- The relay branch of `createAndBuy` (`src/pumpfun.ts` lines 243-257): a
non-empty `error` field yields `success: false` carrying the relay error;
otherwise `success: true` with the bundle id as signature. -/
def jitoBundleOutcome (response : RelayResponse) : TransactionResult :=
  match response.error with
  | some e => { success := false, error := some ("Jito bundle error: " ++ e) }
  | none => { success := true, signature := some response.result }

/-- The submission phase of `createAndBuy` (`src/pumpfun.ts` lines 221-286):
the relay path and the sequential path are mutually exclusive branches of one
`if`; the relay path calls `sendBundle` exactly once and never calls
`sendTx`. -/
structure SubmitOutcome where
  result : Option TransactionResult
  relayCalls : Nat
  sequentialSubmits : Nat
deriving DecidableEq, Repr

def createAndBuySubmit (jitoEnabled : Bool) (relayResponse : RelayResponse)
    (sequentialOutcomes : List TransactionResult) : SubmitOutcome :=
  if jitoEnabled then
    { result := some (jitoBundleOutcome relayResponse)
      relayCalls := 1
      sequentialSubmits := 0 }
  else
    { result := (runSequential sequentialOutcomes).1
      relayCalls := 0
      sequentialSubmits := (runSequential sequentialOutcomes).2 }

/-- The jito branch of `sendTx` (`src/util.ts` lines 119-136): a non-empty
relay `error` throws, the `catch` block wraps the thrown `Error` as
`Unknown Error: ...` in a `TransactionError` and returns `success: false`;
otherwise the bundle id is returned as the signature with `success: true`.
The relay is consulted exactly once (no retry). -/
def sendTxJito (response : RelayResponse) : TransactionResult :=
  match response.error with
  | some e =>
      { success := false
        error := some ("Unknown Error: " ++ ("Jito bundle error: " ++ e)) }
  | none => { success := true, signature := some response.result }

section Slippage

/-- C3 counterexample input: at `amount = 1`, `basisPoints = 1` the floor of
`amount * basisPoints / 10000` is zero, so neither bound moves. -/
theorem slippage_not_strict_counterexample :
    calculateWithSlippageBuy 1 1 = 1 ∧ calculateWithSlippageSell 1 1 = 1 := by
  constructor <;> rfl

/-- C3 (amended): for nonnegative amount and tolerance, both bounds move by
the floor-rounded delta `floor(amount * basisPoints / 10000)` (floor in both
directions, not ceiling on buy), so the buy bound is at least the amount and
the sell bound is at most the amount (weakly worse for the caller), and the
two inequalities are strict exactly when `amount * basisPoints ≥ 10000`. -/
theorem slippage_weak_bounds (amount basisPoints : Int)
    (hA : 0 ≤ amount) (hB : 0 ≤ basisPoints) :
    calculateWithSlippageBuy amount basisPoints
      = amount + amount * basisPoints / 10000 ∧
    calculateWithSlippageSell amount basisPoints
      = amount - amount * basisPoints / 10000 ∧
    amount ≤ calculateWithSlippageBuy amount basisPoints ∧
    calculateWithSlippageSell amount basisPoints ≤ amount ∧
    ((amount < calculateWithSlippageBuy amount basisPoints ∧
      calculateWithSlippageSell amount basisPoints < amount)
      ↔ 10000 ≤ amount * basisPoints) := by
  have hprod : 0 ≤ amount * basisPoints := mul_nonneg hA hB
  have hdiv : (amount * basisPoints).tdiv 10000 = amount * basisPoints / 10000 :=
    Int.tdiv_eq_ediv hprod (by omega)
  unfold calculateWithSlippageBuy calculateWithSlippageSell
  rw [hdiv]
  omega

/-- C3 witness: the amended bounds evaluated at `amount = 3`,
`basisPoints = 40000`. -/
theorem slippage_weak_bounds_witness :
    calculateWithSlippageBuy 3 40000 = 3 + 3 * 40000 / 10000 ∧
    calculateWithSlippageSell 3 40000 = 3 - 3 * 40000 / 10000 ∧
    3 ≤ calculateWithSlippageBuy 3 40000 ∧
    calculateWithSlippageSell 3 40000 ≤ 3 ∧
    ((3 < calculateWithSlippageBuy 3 40000 ∧
      calculateWithSlippageSell 3 40000 < 3)
      ↔ (10000 : Int) ≤ 3 * 40000) :=
  slippage_weak_bounds 3 40000 (by decide) (by decide)

/-- C4: for nonnegative inputs `calculateWithSlippageBuy` returns exactly
`amount + floor(amount * basisPoints / 10000)` (on `Int`, `/` is Euclidean
division, which is the floor for the positive divisor 10000). -/
theorem buy_slippage_formula (amount basisPoints : Int)
    (hA : 0 ≤ amount) (hB : 0 ≤ basisPoints) :
    calculateWithSlippageBuy amount basisPoints
      = amount + amount * basisPoints / 10000 := by
  unfold calculateWithSlippageBuy
  rw [Int.tdiv_eq_ediv (mul_nonneg hA hB) (by omega)]

/-- C4 witness: the formula evaluated at `amount = 7`, `basisPoints = 500`. -/
theorem buy_slippage_formula_witness :
    calculateWithSlippageBuy 7 500 = 7 + 7 * 500 / 10000 :=
  buy_slippage_formula 7 500 (by decide) (by decide)

/-- C5 counterexample input: at `amount = 1`, `basisPoints = 20000` the
subtrahend exceeds the amount and `calculateWithSlippageSell` silently
returns the negative value `-1`; no underflow failure occurs. -/
theorem sell_slippage_negative_counterexample :
    calculateWithSlippageSell 1 20000 = -1 ∧
    calculateWithSlippageSell 1 20000 < 0 := by
  constructor <;> decide

/-- C5 (amended): quantities are arbitrary-precision signed bigints; when the
floor-rounded slippage delta exceeds the amount, `calculateWithSlippageSell`
returns a negative value instead of failing — and that is the only way the
result goes negative for nonnegative inputs. -/
theorem sell_slippage_negative_iff (amount basisPoints : Int)
    (hA : 0 ≤ amount) (hB : 0 ≤ basisPoints) :
    calculateWithSlippageSell amount basisPoints < 0 ↔
      amount < (amount * basisPoints).tdiv 10000 := by
  unfold calculateWithSlippageSell
  omega

/-- C5 witness: the amended characterisation at `amount = 1`,
`basisPoints = 20000`. -/
theorem sell_slippage_negative_iff_witness :
    calculateWithSlippageSell 1 20000 < 0 ↔
      (1 : Int) < ((1 : Int) * 20000).tdiv 10000 :=
  sell_slippage_negative_iff 1 20000 (by decide) (by decide)

/-- C9: zero slippage tolerance is the identity on both slippage
operations. -/
theorem zero_slippage_identity (amount : Int) :
    calculateWithSlippageBuy amount 0 = amount ∧
    calculateWithSlippageSell amount 0 = amount := by
  unfold calculateWithSlippageBuy calculateWithSlippageSell
  simp

end Slippage

theorem batchTransactions_length (env : Env) (jitoEnabled : Bool)
    (tipLamports : Nat) (mint : Pubkey) (slippageBasisPoints : Int)
    (j : Nat) (bs : List (List BundledBuy)) :
    (batchTransactions env jitoEnabled tipLamports mint slippageBasisPoints
        j bs).length = bs.length := by
  induction bs generalizing j with
  | nil => rfl
  | cons b rest ih => simp [batchTransactions, ih]

/-- C2: with `N ≥ 1` bundled buyers and the per-transaction cap
`MAX_BUNDLED_BUYS_PER_TX = 4`, the plan holds exactly 1 primary transaction
plus `ceil(N / 4)` secondary transactions, each secondary transaction with at
most 4 buy participants; for `N = 9` there are exactly 3 secondary
transactions and the last batch has exactly 1 participant. -/
theorem createAndBuy_batching (env : Env) (creator mint : Keypair)
    (name symbol uri : String) (buyAmountSol slippageBasisPoints : Int)
    (jitoEnabled : Bool) (tipLamports : Nat) (bundledBuys : List BundledBuy)
    (hN : 1 ≤ bundledBuys.length) :
    (createAndBuyPlan env creator mint name symbol uri buyAmountSol
        slippageBasisPoints jitoEnabled tipLamports bundledBuys).txs.length
      = 1 + (bundledBuys.length + 3) / 4
    ∧ (∀ sgns ∈ (createAndBuyPlan env creator mint name symbol uri buyAmountSol
        slippageBasisPoints jitoEnabled tipLamports bundledBuys).signers.tail,
        sgns.length ≤ 4)
    ∧ (bundledBuys.length = 9 →
        (createAndBuyPlan env creator mint name symbol uri buyAmountSol
          slippageBasisPoints jitoEnabled tipLamports bundledBuys).txs.length
            = 4
        ∧ ((createAndBuyPlan env creator mint name symbol uri buyAmountSol
            slippageBasisPoints jitoEnabled tipLamports
            bundledBuys).signers.getLast?).map List.length = some 1) := by
  have hguard : (0 < bundledBuys.length) = True := by simp; omega
  have hlen : (createAndBuyPlan env creator mint name symbol uri buyAmountSol
      slippageBasisPoints jitoEnabled tipLamports bundledBuys).txs.length
      = 1 + (bundledBuys.length + 3) / 4 := by
    simp only [createAndBuyPlan, hguard, if_true, List.length_cons,
      batchTransactions_length, makeBatches_length]
    omega
  refine ⟨hlen, ?_, ?_⟩
  · intro sgns hsgns
    simp only [createAndBuyPlan, hguard, if_true, List.tail_cons,
      List.mem_map] at hsgns
    obtain ⟨batch, hbatch, rfl⟩ := hsgns
    have := (makeBatches_mem bundledBuys batch hbatch).2
    simpa using this
  · intro h9
    refine ⟨by rw [hlen, h9], ?_⟩
    simp only [createAndBuyPlan, hguard, if_true, makeBatches_nine bundledBuys h9]
    simp [List.getLast?, List.length_drop, h9]

/-- The accounts that must sign for an instruction to be valid: the funding
account of a system transfer, the creator and the mint keypair for `create`
(the mint signs per `.signers([mint])` in `getCreateInstructions`), the fee
payer of an associated-token-account creation, and the trading user for
`buy` / `sell`. -/
def requiredSigners : Instruction → List Pubkey
  | .transfer fromPubkey _ _ => [fromPubkey]
  | .create user mint _ _ _ => [user, mint]
  | .createATA payer _ _ _ => [payer]
  | .buy user _ _ _ _ => [user]
  | .sell user _ _ _ _ => [user]

/-- All accounts whose instructions appear in a transaction. -/
def txRequiredSigners (tx : List Instruction) : List Pubkey :=
  (tx.map requiredSigners).flatten

theorem txRequiredSigners_append (t1 t2 : List Instruction) :
    txRequiredSigners (t1 ++ t2)
      = txRequiredSigners t1 ++ txRequiredSigners t2 := by
  simp [txRequiredSigners]

theorem txRequiredSigners_nil : txRequiredSigners [] = [] := rfl

theorem txRequiredSigners_singleton (ix : Instruction) :
    txRequiredSigners [ix] = requiredSigners ix := by
  simp [txRequiredSigners]

theorem mem_txRequiredSigners_flatten_map (f : BundledBuy → List Instruction)
    (batch : List BundledBuy) (x : Pubkey) :
    x ∈ txRequiredSigners ((batch.map f).flatten)
      ↔ ∃ b ∈ batch, x ∈ txRequiredSigners (f b) := by
  simp only [txRequiredSigners, List.mem_flatten, List.mem_map]
  constructor
  · rintro ⟨ps, ⟨ix, hix, rfl⟩, hx⟩
    obtain ⟨ixs, ⟨b, hb, rfl⟩, hmem⟩ := hix
    exact ⟨b, hb, ⟨requiredSigners ix, ⟨ix, hmem, rfl⟩, hx⟩⟩
  · rintro ⟨b, hb, ⟨ps, ⟨ix, hix, rfl⟩, hx⟩⟩
    exact ⟨requiredSigners ix, ⟨ix, ⟨f b, ⟨b, hb, rfl⟩, hix⟩, rfl⟩, hx⟩

theorem mem_required_getBuy (env : Env) (buyer mint feeRecipient : Pubkey)
    (amount solAmount : Int) (x : Pubkey) :
    x ∈ txRequiredSigners
        (getBuyInstructions env buyer mint feeRecipient amount solAmount)
      ↔ x = buyer := by
  cases h : env.ataExists buyer mint <;>
    simp [getBuyInstructions, txRequiredSigners, requiredSigners, h]

theorem mem_required_batchTransaction (env : Env) (jitoEnabled : Bool)
    (tipLamports : Nat) (mint : Pubkey) (slippageBasisPoints : Int)
    (j : Nat) (b0 : BundledBuy) (bs : List BundledBuy) (x : Pubkey) :
    x ∈ txRequiredSigners
        (batchTransaction env jitoEnabled tipLamports mint
          slippageBasisPoints j (b0 :: bs))
      ↔ ∃ b ∈ (b0 :: bs), x = b.signer.pub := by
  unfold batchTransaction
  rw [txRequiredSigners_append]
  cases hj : jitoEnabled <;>
    simp only [if_true, if_false, Bool.false_eq_true, reduceIte,
      txRequiredSigners_nil, txRequiredSigners_singleton, requiredSigners,
      List.mem_append, List.not_mem_nil, List.mem_singleton, false_or,
      mem_txRequiredSigners_flatten_map, mem_required_getBuy] <;>
    aesop

theorem forall2_batch_signers (env : Env) (jitoEnabled : Bool)
    (tipLamports : Nat) (mint : Pubkey) (slippageBasisPoints : Int)
    (batches : List (List BundledBuy)) (hne : ∀ b ∈ batches, b ≠ [])
    (j : Nat) :
    List.Forall₂ (fun sgns tx => ∀ x : Pubkey,
        x ∈ sgns.map Keypair.pub ↔ x ∈ txRequiredSigners tx)
      (batches.map (fun batch => batch.map (·.signer)))
      (batchTransactions env jitoEnabled tipLamports mint
        slippageBasisPoints j batches) := by
  induction batches generalizing j with
  | nil => exact List.Forall₂.nil
  | cons batch rest ih =>
      have hb : batch ≠ [] := hne batch (List.mem_cons_self _ _)
      obtain ⟨b0, bs, rfl⟩ := List.exists_cons_of_ne_nil hb
      refine List.Forall₂.cons ?_ ?_
      · intro x
        rw [mem_required_batchTransaction]
        simp only [List.map_map, List.mem_map, Function.comp, List.mem_cons]
        aesop
      · exact ih (fun b hbm => hne b (List.mem_cons_of_mem _ hbm)) (j + 1)

/-- C7: in every plan `createAndBuy` builds, the signer set attached to
transaction `i` is exactly the set of accounts whose instructions appear in
transaction `i`: `[creator, mint]` for the primary transaction and each
batch's own buyers for its batch transaction — for every number of bundled
buys and whether or not relay routing is enabled. -/
theorem signer_sets_exact (env : Env) (creator mint : Keypair)
    (name symbol uri : String) (buyAmountSol slippageBasisPoints : Int)
    (jitoEnabled : Bool) (tipLamports : Nat)
    (bundledBuys : List BundledBuy) :
    List.Forall₂ (fun sgns tx => ∀ x : Pubkey,
        x ∈ sgns.map Keypair.pub ↔ x ∈ txRequiredSigners tx)
      (createAndBuyPlan env creator mint name symbol uri buyAmountSol
        slippageBasisPoints jitoEnabled tipLamports bundledBuys).signers
      (createAndBuyPlan env creator mint name symbol uri buyAmountSol
        slippageBasisPoints jitoEnabled tipLamports bundledBuys).txs := by
  simp only [createAndBuyPlan]
  refine List.Forall₂.cons ?_ ?_
  · intro x
    rw [txRequiredSigners_append, txRequiredSigners_append]
    by_cases hb : buyAmountSol > 0 <;> by_cases hj : jitoEnabled <;>
      simp only [hb, hj, if_true, if_false, Bool.false_eq_true, reduceIte,
        txRequiredSigners_nil, txRequiredSigners_singleton, requiredSigners,
        List.mem_append, List.not_mem_nil, List.mem_singleton, false_or,
        or_false, mem_required_getBuy, List.map_cons, List.map_nil,
        List.mem_cons] <;>
      tauto
  · apply forall2_batch_signers
    split
    · intro b hbm
      exact (makeBatches_mem bundledBuys b hbm).1
    · intro b hbm
      cases hbm

/-- A concrete environment used to evaluate plan theorems on closed
inputs. -/
def envNoATA : Env where
  feeRecipient := 100
  initialBuyPrice := fun s => s
  ataExists := fun _ _ => false
  ata := fun m o => m * 1000 + o
  tipAccount := fun _ => 200

/-- Nine concrete bundled buyers. -/
def buyersNine : List BundledBuy :=
  (List.range 9).map (fun i => { signer := { pub := i + 10 }, amountInSol := 1 })

/-- C2 witness: the batching counts evaluated on a concrete request with nine
bundled buyers: 4 transactions in total and a final batch of exactly one
participant. -/
theorem createAndBuy_batching_witness :
    1 ≤ buyersNine.length
    ∧ (createAndBuyPlan envNoATA { pub := 1 } { pub := 2 } "n" "s" "u" 1 500
        true 100000 buyersNine).txs.length = 4
    ∧ ((createAndBuyPlan envNoATA { pub := 1 } { pub := 2 } "n" "s" "u" 1 500
        true 100000 buyersNine).signers.getLast?).map List.length = some 1 :=
  ⟨by decide,
   (createAndBuy_batching envNoATA { pub := 1 } { pub := 2 } "n" "s" "u" 1 500
      true 100000 buyersNine (by decide)).2.2 (by decide)⟩

/-- C1 counterexample input: a 3-transaction plan where transaction 1
succeeds, transaction 2 fails and transaction 3 would succeed. The sequential
loop returns transaction 2's failure, not transaction 1's confirmed success
as the claim states. -/
theorem sequential_returns_failure_counterexample :
    (runSequential
      [{ success := true, signature := some "sig1" },
       { success := false, error := some "boom" },
       { success := true, signature := some "sig3" }]).1
      ≠ some { success := true, signature := some "sig1" } := by
  decide

/-- C1 (amended): in the sequential path, if transaction 2 of 3 fails then
transaction 3 is never submitted (exactly 2 submissions happen), and the
returned outcome is transaction 2's failure result; transaction 1's
already-confirmed success is discarded (it is returned only when every
transaction succeeds). -/
theorem sequential_stops_and_returns_failure (r1 r2 : TransactionResult)
    (rest : List TransactionResult)
    (h1 : r1.success = true) (h2 : r2.success = false) :
    runSequential (r1 :: r2 :: rest) = (some r2, 2) := by
  simp [runSequential, runSequentialGo, h1, h2]

/-- C1 witness: the amended behaviour on the counterexample plan. -/
theorem sequential_stops_and_returns_failure_witness :
    runSequential
      [{ success := true, signature := some "sig1" },
       { success := false, error := some "boom" },
       { success := true, signature := some "sig3" }]
      = (some { success := false, error := some "boom" }, 2) :=
  sequential_stops_and_returns_failure
    { success := true, signature := some "sig1" }
    { success := false, error := some "boom" }
    [{ success := true, signature := some "sig3" }] rfl rfl

/-- C6: a non-empty relay error makes the whole request a total failure: the
relay branch of `createAndBuy` returns `success: false` carrying the relay
error, calls the relay exactly once (no retry), submits nothing through the
sequential path, and the jito branch of `sendTx` likewise returns
`success: false`. -/
theorem relay_error_total_failure (response : RelayResponse) (e : String)
    (sequentialOutcomes : List TransactionResult)
    (herr : response.error = some e) :
    (createAndBuySubmit true response sequentialOutcomes).result
      = some { success := false, error := some ("Jito bundle error: " ++ e) }
    ∧ (createAndBuySubmit true response sequentialOutcomes).relayCalls = 1
    ∧ (createAndBuySubmit true response sequentialOutcomes).sequentialSubmits
        = 0
    ∧ (sendTxJito response).success = false := by
  simp [createAndBuySubmit, jitoBundleOutcome, sendTxJito, herr]

/-- C6 witness: the relay-failure behaviour at a concrete response. -/
theorem relay_error_total_failure_witness :
    (createAndBuySubmit true { error := some "rejected" } []).result
      = some { success := false
               error := some ("Jito bundle error: " ++ "rejected") }
    ∧ (createAndBuySubmit true { error := some "rejected" } []).relayCalls = 1
    ∧ (createAndBuySubmit true
        { error := some "rejected" } []).sequentialSubmits = 0
    ∧ (sendTxJito { error := some "rejected" }).success = false :=
  relay_error_total_failure { error := some "rejected" } "rejected" [] rfl

/-- C8: when the associated-token-account lookup reports absence (never an
error), `getBuyInstructions` emits exactly the create-holding-account
instruction followed by the buy instruction, in that order; when the holding
account exists the emitted sequence is exactly the single buy instruction —
in both cases the buy instruction carries the given token amount and
slippage-bounded maximum spend, and the create-holding-account instruction
appears iff the lookup reported absence. -/
theorem buy_instructions_shape (env : Env) (buyer mint feeRecipient : Pubkey)
    (amount solAmount : Int) :
    (env.ataExists buyer mint = true →
      getBuyInstructions env buyer mint feeRecipient amount solAmount
        = [Instruction.buy buyer mint feeRecipient amount solAmount])
    ∧ (env.ataExists buyer mint = false →
      getBuyInstructions env buyer mint feeRecipient amount solAmount
        = [Instruction.createATA buyer (env.ata mint buyer) buyer mint,
           Instruction.buy buyer mint feeRecipient amount solAmount])
    ∧ (Instruction.createATA buyer (env.ata mint buyer) buyer mint
        ∈ getBuyInstructions env buyer mint feeRecipient amount solAmount
      ↔ env.ataExists buyer mint = false)
    ∧ Instruction.buy buyer mint feeRecipient amount solAmount
        ∈ getBuyInstructions env buyer mint feeRecipient amount solAmount := by
  cases h : env.ataExists buyer mint <;> simp [getBuyInstructions, h]

/-- Concrete environment with every holding account already present, used to
evaluate theorems on a closed input. -/
def envAllATA : Env where
  feeRecipient := 100
  initialBuyPrice := fun s => s
  ataExists := fun _ _ => true
  ata := fun m o => m * 1000 + o
  tipAccount := fun _ => 200

/-- C8 witness: with the holding account present, the emitted sequence is
exactly the single buy instruction; with it absent, it is exactly the
create-holding-account instruction followed by the buy instruction. -/
theorem buy_instructions_shape_witness :
    getBuyInstructions envAllATA 1 2 100 50 60
      = [Instruction.buy 1 2 100 50 60]
    ∧ getBuyInstructions envNoATA 1 2 100 50 60
      = [Instruction.createATA 1 (envNoATA.ata 2 1) 1 2,
         Instruction.buy 1 2 100 50 60] :=
  ⟨(buy_instructions_shape envAllATA 1 2 100 50 60).1 rfl,
   (buy_instructions_shape envNoATA 1 2 100 50 60).2.1 rfl⟩

/-- C10: with `buyAmountSol = 0` the primary transaction is exactly the
optional relay tip (present iff relay routing is enabled) followed by the
create instruction — no buy instruction — and neither the global-config fetch
for pricing the creator's buy nor any initial-buy quote is performed. -/
theorem createAndBuy_zero_buy (env : Env) (creator mint : Keypair)
    (name symbol uri : String) (slippageBasisPoints : Int)
    (jitoEnabled : Bool) (tipLamports : Nat)
    (bundledBuys : List BundledBuy) :
    (createAndBuyPlan env creator mint name symbol uri 0 slippageBasisPoints
        jitoEnabled tipLamports bundledBuys).txs.head?
      = some ((if jitoEnabled then
            [Instruction.transfer creator.pub (env.tipAccount 0) tipLamports]
          else [])
          ++ [Instruction.create creator.pub mint.pub name symbol uri])
    ∧ Effect.fetchGlobalForCreatorBuy
        ∉ (createAndBuyPlan env creator mint name symbol uri 0
            slippageBasisPoints jitoEnabled tipLamports bundledBuys).effects
    ∧ ∀ solIn : Int, Effect.quoteCreatorInitialBuy solIn
        ∉ (createAndBuyPlan env creator mint name symbol uri 0
            slippageBasisPoints jitoEnabled tipLamports bundledBuys).effects := by
  simp [createAndBuyPlan]

end PumpFun
